import Mathlib

/-!
# Verification of the AI-RetinoNet model lifecycle manager

Shallow embedding of `src/retinonet_backend/model_manager.py` (class
`ModelManager`) together with the relevant behaviour of its collaborator
`src/retinonet_backend/models.py` (`load_model`).

Modelling choices, each traceable to the source:

* A model handle is an opaque value; we represent it by `Nat`.  A Python
  reference that may be `None` is `Option Nat` (`none` = Python `None`).
* `models.load_model` either raises or returns a freshly constructed
  `Sequential` model object, which is never `None`; hence the loader is
  modelled as `Option Nat` in the environment, where `none` means
  "raises an exception" and `some h` means "returns handle `h`".
* `pickle.load` on an existing readable cache file returns an arbitrary
  pickled Python value — including `None` if the file happens to contain a
  pickled `None` — or raises on corrupt data.  The cache file is therefore
  `absent`, `corrupt`, or `stored v` with `v : Option Nat`.
* Exceptions are modelled with `Except PyExn`; a Python `try ... except`
  block becomes a `match` on the `Except` value of the translated body.
* Concurrency: every mutation of `model` / `model_loaded` in the source
  happens inside the body of `_load_model` guarded by `self.loading_lock`
  (and Python's GIL makes the individual attribute reads/writes atomic).
  We therefore use the standard linearisation: a set of concurrent calls is
  modelled as a sequence of operations executed one after another, each
  running its lock-protected section to completion.  Under this semantics
  the pre-lock `model_loaded` check and the in-lock double-check coincide,
  and a background thread spawned by `load_model_in_background` runs
  `_load_model` to completion before the next operation observes the state.
* `time.time()` is an environment input (`Env.time`).
-/

/-- Exceptions that can arise inside the load procedure. -/
inductive PyExn where
  | cacheReadError
  | cacheWriteError
  | loaderError
  deriving DecidableEq, Repr

/-- Contents of the single-slot cache file at `self.cache_path`:
absent (`os.path.exists` is false), corrupt (`open`/`pickle.load` raises),
or readable and holding a pickled value `v` (possibly a pickled `None`). -/
inductive CacheFile where
  | absent
  | corrupt
  | stored (v : Option Nat)
  deriving DecidableEq, Repr

/-- The external world a single operation runs against: the filesystem and
the collaborators (`models.load_model`, `pickle`, `time.time`). -/
structure Env where
  /-- contents of the cache file at `self.cache_path` -/
  cache : CacheFile
  /-- `os.path.exists(self.model_path)` -/
  modelFileExists : Bool
  /-- behaviour of `models.load_model(self.model_path)`:
  `none` = raises, `some h` = returns the (never-`None`) handle `h` -/
  loader : Option Nat
  /-- whether `open(self.cache_path, 'wb')` / `pickle.dump` succeeds -/
  cacheWritable : Bool
  /-- value returned by `time.time()` -/
  time : Nat
  deriving DecidableEq, Repr

/-- The mutable attributes of a `ModelManager` instance.
`loading_thread` models whether a live background loading thread exists
(`self.loading_thread is not None and self.loading_thread.is_alive()`). -/
structure ManagerState where
  /-- `self.model` -/
  model : Option Nat
  /-- `self.model_loaded` -/
  model_loaded : Bool
  /-- whether `self.loading_thread` is a live thread -/
  loading_thread : Bool
  /-- `self.last_access_time` -/
  last_access_time : Nat
  deriving DecidableEq, Repr

/-- `ModelManager.__init__`: `model = None`, `model_loaded = False`,
no loading thread, `last_access_time = time.time()`.  (The constructor also
creates the cache directory; it never touches the cache file itself.) -/
def initState (t : Nat) : ManagerState :=
  { model := none, model_loaded := false, loading_thread := false,
    last_access_time := t }

/-- Body of the `try` block of `ModelManager._load_from_cache`
(lines 93–100): return `False` if the cache file does not exist, otherwise
`self.model = pickle.load(f); return True`; corrupt data raises. -/
def loadFromCacheBody (env : Env) (s : ManagerState) :
    Except PyExn (ManagerState × Bool) :=
  match env.cache with
  | CacheFile.absent => Except.ok (s, false)
  | CacheFile.corrupt => Except.error PyExn.cacheReadError
  | CacheFile.stored v => Except.ok ({ s with model := v }, true)

/-- `ModelManager._load_from_cache`: the `try`/`except` wrapper — any
exception is logged and converted into `return False`. -/
def loadFromCache (env : Env) (s : ManagerState) : ManagerState × Bool :=
  match loadFromCacheBody env s with
  | Except.ok r => r
  | Except.error _ => (s, false)

/-- Body of the `try` block of `ModelManager._save_to_cache`
(lines 107–111): `pickle.dump(self.model, f); return True`; an unwritable
cache path raises. -/
def saveToCacheBody (env : Env) (s : ManagerState) :
    Except PyExn (Env × Bool) :=
  if env.cacheWritable then
    Except.ok ({ env with cache := CacheFile.stored s.model }, true)
  else
    Except.error PyExn.cacheWriteError

/-- `ModelManager._save_to_cache`: the `try`/`except` wrapper — any
exception is logged and converted into `return False`. -/
def saveToCache (env : Env) (s : ManagerState) : Env × Bool :=
  match saveToCacheBody env s with
  | Except.ok r => r
  | Except.error _ => (env, false)

/-- Body of the `try` block of `ModelManager._load_model` (lines 50–74),
run while holding `self.loading_lock`.  Returns the new manager state, the
new environment (the cache file may have been written), and the number of
times `models.load_model` was invoked.  The only exception that can escape
this body is the loader's own (`_load_from_cache` and `_save_to_cache`
catch theirs internally), and it is raised by the `load_model(...)` call
itself, i.e. after exactly one loader invocation. -/
def loadModelBody (env : Env) (s : ManagerState) :
    Except PyExn (ManagerState × Env × Nat) :=
  let c := loadFromCache env s
  if c.2 then
    Except.ok ({ c.1 with model_loaded := true }, env, 0)
  else if env.modelFileExists = false then
    Except.ok (c.1, env, 0)
  else
    match env.loader with
    | none => Except.error PyExn.loaderError
    | some h =>
      let s2 := { c.1 with model := some h, model_loaded := true }
      Except.ok (s2, (saveToCache env s2).1, 1)

/-- `ModelManager._load_model`: early return when already loaded (the
pre-lock check and the in-lock double-check coincide under the linearised
semantics), otherwise run the body; the `except` clause converts any
escaping exception into `self.model_loaded = False`.  The escaping
exception is always the loader's, raised after one loader invocation. -/
def loadModel (env : Env) (s : ManagerState) : ManagerState × Env × Nat :=
  if s.model_loaded then (s, env, 0)
  else
    match loadModelBody env s with
    | Except.ok r => r
    | Except.error _ => ({ s with model_loaded := false }, env, 1)

/-- `ModelManager.get_model`: update `last_access_time`, load synchronously
if not loaded, return `self.model`.  Result: new state, new environment,
loader-invocation count, returned handle. -/
def getModel (env : Env) (s : ManagerState) :
    ManagerState × Env × Nat × Option Nat :=
  let s0 := { s with last_access_time := env.time }
  if s0.model_loaded then (s0, env, 0, s0.model)
  else
    let r := loadModel env s0
    (r.1, r.2.1, r.2.2, r.1.model)

/-- `ModelManager.is_model_loaded`: non-mutating query of the flag. -/
def isModelLoaded (s : ManagerState) : Bool :=
  s.model_loaded

/-- `ModelManager.load_model_in_background`: no-op if a live loading thread
exists, otherwise spawn a thread running `_load_model`.  Under the
linearised semantics the spawned thread runs to completion here, after
which it is no longer alive, so `loading_thread` is unchanged. -/
def loadModelInBackground (env : Env) (s : ManagerState) :
    ManagerState × Env × Nat :=
  if s.loading_thread then (s, env, 0)
  else loadModel env s

/-- The public operations a caller can issue. -/
inductive Op where
  | get
  | background
  | status
  deriving DecidableEq, Repr

/-- One linearised call.  Last component: `some r` is the handle returned
by `get_model` (`r = none` is Python `None`); `none` for the other two
operations, which return no handle. -/
def stepOp (s : ManagerState) (env : Env) :
    Op → ManagerState × Env × Nat × Option (Option Nat)
  | Op.get =>
    let r := getModel env s
    (r.1, r.2.1, r.2.2.1, some r.2.2.2)
  | Op.background =>
    let r := loadModelInBackground env s
    (r.1, r.2.1, r.2.2, none)
  | Op.status => (s, env, 0, none)

/-- A sequence of calls against one environment; cache writes performed by
the manager persist to later calls.  Returns the final state, the final
environment, the total number of loader invocations, and the list of
handles returned by the `get_model` calls in order. -/
def runOps (s : ManagerState) (env : Env) :
    List Op → ManagerState × Env × Nat × List (Option Nat)
  | [] => (s, env, 0, [])
  | op :: ops =>
    let r1 := stepOp s env op
    let r2 := runOps r1.1 r1.2.1 ops
    (r2.1, r2.2.1, r1.2.2.1 + r2.2.2.1,
      match r1.2.2.2 with
      | some r => r :: r2.2.2.2
      | none => r2.2.2.2)

/-- A sequence of calls where the filesystem contents are chosen
adversarially before each call (the "any filesystem/cache contents"
reading): each step runs against its own environment and the environment
the manager produced is discarded.  Returns the final state and the total
number of loader invocations. -/
def runOpsAdv (s : ManagerState) :
    List (Op × Env) → ManagerState × Nat
  | [] => (s, 0)
  | (op, env) :: rest =>
    let r1 := stepOp s env op
    let r2 := runOpsAdv r1.1 rest
    (r2.1, r1.2.2.1 + r2.2)

/-- Number of `get_model` calls in a list of operations (the calls that
return a handle). -/
def numGets : List Op → Nat
  | [] => 0
  | Op.get :: rest => numGets rest + 1
  | _ :: rest => numGets rest

/-! ## Helper lemmas -/

/-- Characterisation of the exceptions escaping the `_load_model` try
block: only the loader's exception escapes, and only on a cache miss with
an existing weights file and a failing loader.  In particular the escape
condition depends only on the environment, not on the manager state. -/
lemma loadModelBody_error_iff (env : Env) (s : ManagerState) (e : PyExn) :
    loadModelBody env s = Except.error e ↔
      (e = PyExn.loaderError ∧
        (env.cache = CacheFile.absent ∨ env.cache = CacheFile.corrupt) ∧
        env.modelFileExists = true ∧ env.loader = none) := by
  cases hc : env.cache <;>
    cases hf : env.modelFileExists <;>
      cases hl : env.loader <;>
        simp [loadModelBody, loadFromCache, loadFromCacheBody, hc, hf, hl] <;>
          exact eq_comm

/-- A single linearised call on a loaded manager holding handle `h` keeps
the flag and the handle, touches neither the loader nor the cache, and,
when it is a `get_model` call, returns `h`. -/
lemma stepOp_loaded (h : Nat) (s : ManagerState) (env : Env) (op : Op)
    (hl : s.model_loaded = true) (hm : s.model = some h) :
    (stepOp s env op).1.model_loaded = true ∧
    (stepOp s env op).1.model = some h ∧
    (stepOp s env op).2.1 = env ∧
    (stepOp s env op).2.2.1 = 0 ∧
    (stepOp s env op).2.2.2 =
      (if op = Op.get then some (some h) else none) := by
  cases op with
  | get => simp [stepOp, getModel, hl, hm]
  | background =>
    cases ht : s.loading_thread <;>
      simp [stepOp, loadModelInBackground, loadModel, ht, hl, hm]
  | status => simp [stepOp, hl, hm]

/-- A whole linearised trace on a loaded manager holding handle `h` keeps
the flag and the handle, never invokes the loader, never writes the cache,
and returns `h` from every `get_model` call. -/
lemma runOps_loaded (h : Nat) :
    ∀ (ops : List Op) (s : ManagerState) (env : Env),
      s.model_loaded = true → s.model = some h →
      (runOps s env ops).1.model_loaded = true ∧
      (runOps s env ops).1.model = some h ∧
      (runOps s env ops).2.1 = env ∧
      (runOps s env ops).2.2.1 = 0 ∧
      (runOps s env ops).2.2.2 = List.replicate (numGets ops) (some h) := by
  intro ops
  induction ops with
  | nil => intro s env hl hm; simp [runOps, numGets, hl, hm]
  | cons op rest ih =>
    intro s env hl hm
    obtain ⟨h1, h2, h3, h4, h5⟩ := stepOp_loaded h s env op hl hm
    obtain ⟨g1, g2, g3, g4, g5⟩ :=
      ih (stepOp s env op).1 (stepOp s env op).2.1 h1 h2
    simp only [runOps]
    refine ⟨g1, g2, g3.trans h3, ?_, ?_⟩
    · rw [h4, g4]
    · rw [h5]
      cases op with
      | get => simp [g5, numGets, List.replicate_succ]
      | background => simp [g5, numGets]
      | status => simp [g5, numGets]

/-! ## Claims -/

/-- C2 — Fallback correctness: from an unloaded state, with a valid cache
file holding handle `h` and an absent weights file, `get_model` returns the
cached handle, marks the manager loaded, never invokes the loader
(count 0) and leaves the environment untouched. -/
theorem c2_cache_fallback (env : Env) (s : ManagerState) (h : Nat)
    (hun : s.model_loaded = false)
    (hc : env.cache = CacheFile.stored (some h))
    (_hf : env.modelFileExists = false) :
    getModel env s =
      ({ s with
          last_access_time := env.time
          model := some h
          model_loaded := true },
        env, 0, some h) := by
  simp [getModel, loadModel, loadModelBody, loadFromCache, loadFromCacheBody,
    hun, hc]

/-- Witness for C2 at a concrete unloaded manager and cache. -/
theorem c2_cache_fallback_witness :
    getModel ⟨CacheFile.stored (some 7), false, none, true, 3⟩ (initState 0) =
      ({ initState 0 with
          last_access_time := 3
          model := some 7
          model_loaded := true },
        ⟨CacheFile.stored (some 7), false, none, true, 3⟩, 0, some 7) :=
  c2_cache_fallback _ _ 7 rfl rfl rfl

/-- C7 — Cache-write failure is non-fatal: from an unloaded state, on a
cache miss with an existing weights file and a loader that yields `h`, even
when the cache is not writable, `get_model` still stores the handle, marks
the manager loaded, and returns the handle; the environment (and hence the
cache file) is unchanged. -/
theorem c7_cache_write_failure_nonfatal (env : Env) (s : ManagerState)
    (h : Nat)
    (hun : s.model_loaded = false)
    (hc : env.cache = CacheFile.absent ∨ env.cache = CacheFile.corrupt)
    (hf : env.modelFileExists = true)
    (hl : env.loader = some h)
    (hw : env.cacheWritable = false) :
    getModel env s =
      ({ s with
          last_access_time := env.time
          model := some h
          model_loaded := true },
        env, 1, some h) := by
  rcases hc with hc | hc <;>
    simp [getModel, loadModel, loadModelBody, loadFromCache,
      loadFromCacheBody, saveToCache, saveToCacheBody, hun, hc, hf, hl, hw]

/-- Witness for C7 at a concrete unloaded manager with a read-only cache
location. -/
theorem c7_cache_write_failure_nonfatal_witness :
    getModel ⟨CacheFile.absent, true, some 9, false, 5⟩ (initState 0) =
      ({ initState 0 with
          last_access_time := 5
          model := some 9
          model_loaded := true },
        ⟨CacheFile.absent, true, some 9, false, 5⟩, 1, some 9) :=
  c7_cache_write_failure_nonfatal _ _ 9 rfl (Or.inl rfl) rfl rfl rfl

/-- C8 — Corrupt cache treated as a miss: from an unloaded state with a
corrupt cache file, the deserialization error is caught inside
`_load_from_cache` (which returns `False` instead of raising), and the
load procedure behaves exactly as it would with an absent cache file: it
falls through to the `os.path.exists` check on `model_path` and, when the
file exists, to the loader (same resulting manager state and same
loader-invocation count as the absent-cache run). -/
theorem c8_corrupt_cache_is_miss (env : Env) (s : ManagerState)
    (hun : s.model_loaded = false)
    (hc : env.cache = CacheFile.corrupt) :
    loadFromCacheBody env s = Except.error PyExn.cacheReadError ∧
    loadFromCache env s = (s, false) ∧
    (loadModel env s).1 =
      (loadModel { env with cache := CacheFile.absent } s).1 ∧
    (loadModel env s).2.2 =
      (loadModel { env with cache := CacheFile.absent } s).2.2 := by
  cases hf : env.modelFileExists <;> cases hl : env.loader <;>
    cases hw : env.cacheWritable <;>
      simp [loadModel, loadModelBody, loadFromCache, loadFromCacheBody,
        saveToCache, saveToCacheBody, hun, hc, hf, hl, hw]

/-- Witness for C8 at a concrete corrupt cache. -/
theorem c8_corrupt_cache_is_miss_witness :
    loadFromCacheBody ⟨CacheFile.corrupt, true, some 4, true, 0⟩
        (initState 0) = Except.error PyExn.cacheReadError ∧
    loadFromCache ⟨CacheFile.corrupt, true, some 4, true, 0⟩ (initState 0) =
      (initState 0, false) ∧
    (loadModel ⟨CacheFile.corrupt, true, some 4, true, 0⟩ (initState 0)).1 =
      (loadModel ⟨CacheFile.absent, true, some 4, true, 0⟩ (initState 0)).1 ∧
    (loadModel ⟨CacheFile.corrupt, true, some 4, true, 0⟩ (initState 0)).2.2 =
      (loadModel ⟨CacheFile.absent, true, some 4, true, 0⟩
        (initState 0)).2.2 :=
  c8_corrupt_cache_is_miss _ _ rfl rfl

/-- C9 — Idempotent trigger: on a loaded manager,
`load_model_in_background` is a complete no-op — the state (handle, flags,
thread field) is returned unchanged, the environment is untouched (no
cache write) and the loader is invoked zero times — and hence any number
of repeated background-load calls leaves everything unchanged as well. -/
theorem c9_idempotent_trigger (env : Env) (s : ManagerState)
    (hl : s.model_loaded = true) :
    loadModelInBackground env s = (s, env, 0) ∧
    ∀ n : Nat, runOps s env (List.replicate n Op.background) =
      (s, env, 0, []) := by
  have hbg : loadModelInBackground env s = (s, env, 0) := by
    cases ht : s.loading_thread <;>
      simp [loadModelInBackground, loadModel, ht, hl]
  refine ⟨hbg, ?_⟩
  intro n
  induction n with
  | zero => simp [runOps]
  | succ m ih =>
    simp only [List.replicate_succ, runOps, stepOp, hbg]
    simp [ih]

/-- Witness for C9 at a concrete loaded manager, repeated twice. -/
theorem c9_idempotent_trigger_witness :
    loadModelInBackground ⟨CacheFile.absent, true, some 2, true, 8⟩
        ⟨some 5, true, false, 1⟩ =
      (⟨some 5, true, false, 1⟩, ⟨CacheFile.absent, true, some 2, true, 8⟩,
        0) ∧
    runOps ⟨some 5, true, false, 1⟩ ⟨CacheFile.absent, true, some 2, true, 8⟩
        (List.replicate 2 Op.background) =
      (⟨some 5, true, false, 1⟩, ⟨CacheFile.absent, true, some 2, true, 8⟩,
        0, []) :=
  ⟨(c9_idempotent_trigger _ _ rfl).1, (c9_idempotent_trigger _ _ rfl).2 2⟩

/-- C10 — Failed-load atomicity: a load-procedure invocation that starts
unloaded with no stored handle and fails — cache absent or corrupt, and
either the weights file is missing or the loader raises — leaves
`model = None` and `model_loaded = False`. -/
theorem c10_failed_load_atomic (env : Env) (s : ManagerState)
    (hm : s.model = none) (hun : s.model_loaded = false)
    (hc : env.cache = CacheFile.absent ∨ env.cache = CacheFile.corrupt)
    (hfail : env.modelFileExists = false ∨ env.loader = none) :
    (loadModel env s).1.model = none ∧
    (loadModel env s).1.model_loaded = false := by
  rcases hc with hc | hc <;> rcases hfail with hf | hf <;>
    cases hfe : env.modelFileExists <;>
      cases hlo : env.loader <;>
        simp_all [loadModel, loadModelBody, loadFromCache, loadFromCacheBody]

/-- Witness for C10 at a concrete empty filesystem. -/
theorem c10_failed_load_atomic_witness :
    (loadModel ⟨CacheFile.absent, false, none, true, 0⟩ (initState 0)).1.model
        = none ∧
    (loadModel ⟨CacheFile.absent, false, none, true, 0⟩
        (initState 0)).1.model_loaded = false :=
  c10_failed_load_atomic _ _ rfl rfl (Or.inl rfl) (Or.inl rfl)

/-- If no readable cache file deserializing to `None` is present, one run
of the load procedure preserves the invariant "loaded implies a stored
handle". -/
lemma loadModel_inv (env : Env) (s : ManagerState)
    (hc : env.cache ≠ CacheFile.stored none)
    (hs : s.model_loaded = true → s.model ≠ none) :
    (loadModel env s).1.model_loaded = true →
      (loadModel env s).1.model ≠ none := by
  cases hml : s.model_loaded with
  | true =>
    intro _
    simpa [loadModel, hml] using hs hml
  | false =>
    cases hcv : env.cache with
    | absent =>
      cases hf : env.modelFileExists <;> cases hlo : env.loader <;>
        simp [loadModel, loadModelBody, loadFromCache, loadFromCacheBody,
          hml, hcv, hf, hlo]
    | corrupt =>
      cases hf : env.modelFileExists <;> cases hlo : env.loader <;>
        simp [loadModel, loadModelBody, loadFromCache, loadFromCacheBody,
          hml, hcv, hf, hlo]
    | stored v =>
      cases v with
      | none => exact absurd hcv hc
      | some x =>
        simp [loadModel, loadModelBody, loadFromCache, loadFromCacheBody,
          hml, hcv]

/-- One linearised call preserves the invariant "loaded implies a stored
handle", provided the cache file is not a readable pickled `None`. -/
lemma stepOp_inv (s : ManagerState) (env : Env) (op : Op)
    (hc : env.cache ≠ CacheFile.stored none)
    (hs : s.model_loaded = true → s.model ≠ none) :
    (stepOp s env op).1.model_loaded = true →
      (stepOp s env op).1.model ≠ none := by
  cases op with
  | get =>
    cases hml : s.model_loaded with
    | true =>
      intro _
      simpa [stepOp, getModel, hml] using hs hml
    | false =>
      have h0 : (stepOp s env Op.get).1 =
          (loadModel env { s with last_access_time := env.time }).1 := by
        simp [stepOp, getModel, hml]
      rw [h0]
      exact loadModel_inv env _ hc hs
  | background =>
    cases ht : s.loading_thread with
    | true =>
      have h0 : (stepOp s env Op.background).1 = s := by
        simp [stepOp, loadModelInBackground, ht]
      rw [h0]
      exact hs
    | false =>
      have h0 : (stepOp s env Op.background).1 = (loadModel env s).1 := by
        simp [stepOp, loadModelInBackground, ht]
      rw [h0]
      exact loadModel_inv env _ hc hs
  | status => exact hs

/-- The very first call on a freshly constructed manager, against an
environment with a cache miss, an existing weights file, and a succeeding
loader: the loader runs exactly once, the handle is stored, and a
`get_model` call returns it. -/
lemma stepOp_first_load (env : Env) (t h : Nat) (op : Op)
    (hc : env.cache = CacheFile.absent ∨ env.cache = CacheFile.corrupt)
    (hf : env.modelFileExists = true) (hl : env.loader = some h)
    (hop : op = Op.get ∨ op = Op.background) :
    (stepOp (initState t) env op).1.model_loaded = true ∧
    (stepOp (initState t) env op).1.model = some h ∧
    (stepOp (initState t) env op).2.2.1 = 1 ∧
    (stepOp (initState t) env op).2.2.2 =
      (if op = Op.get then some (some h) else none) := by
  rcases hop with hop | hop <;> subst hop <;> rcases hc with hc | hc <;>
    cases hw : env.cacheWritable <;>
      simp [stepOp, getModel, loadModelInBackground, loadModel, loadModelBody,
        loadFromCache, loadFromCacheBody, saveToCache, saveToCacheBody,
        initState, hc, hf, hl, hw]

/-- C1 — Single-flight (linearised semantics): any nonempty sequence of
`get_model` / `start_background_load` calls issued against a freshly
constructed (unloaded) manager, with a cache miss, an existing weights
file and a loader yielding handle `h`, invokes the loader exactly once;
every `get_model` call in the sequence returns the same handle `h`, and
the manager ends loaded holding `h`. -/
theorem c1_single_flight (env : Env) (t h : Nat) (ops : List Op)
    (hc : env.cache = CacheFile.absent ∨ env.cache = CacheFile.corrupt)
    (hf : env.modelFileExists = true)
    (hl : env.loader = some h)
    (hne : ops ≠ [])
    (hops : ∀ op ∈ ops, op = Op.get ∨ op = Op.background) :
    (runOps (initState t) env ops).2.2.1 = 1 ∧
    (runOps (initState t) env ops).1.model_loaded = true ∧
    (runOps (initState t) env ops).1.model = some h ∧
    (runOps (initState t) env ops).2.2.2 =
      List.replicate (numGets ops) (some h) := by
  cases ops with
  | nil => exact absurd rfl hne
  | cons op rest =>
    obtain ⟨h1, h2, h3, h4⟩ :=
      stepOp_first_load env t h op hc hf hl (hops op (List.mem_cons_self _ _))
    obtain ⟨g1, g2, _g3, g4, g5⟩ :=
      runOps_loaded h rest (stepOp (initState t) env op).1
        (stepOp (initState t) env op).2.1 h1 h2
    simp only [runOps]
    refine ⟨by rw [h3, g4], g1, g2, ?_⟩
    rw [h4]
    cases op with
    | get => simp [g5, numGets, List.replicate_succ]
    | background => simp [g5, numGets]
    | status => simp [g5, numGets]

/-- Witness for C1: two concurrent-in-effect `get_model` calls on a fresh
manager load once and both return the handle. -/
theorem c1_single_flight_witness :
    (runOps (initState 0) ⟨CacheFile.absent, true, some 7, true, 1⟩
        [Op.get, Op.get]).2.2.1 = 1 ∧
    (runOps (initState 0) ⟨CacheFile.absent, true, some 7, true, 1⟩
        [Op.get, Op.get]).1.model_loaded = true ∧
    (runOps (initState 0) ⟨CacheFile.absent, true, some 7, true, 1⟩
        [Op.get, Op.get]).1.model = some 7 ∧
    (runOps (initState 0) ⟨CacheFile.absent, true, some 7, true, 1⟩
        [Op.get, Op.get]).2.2.2 =
      List.replicate (numGets [Op.get, Op.get]) (some 7) :=
  c1_single_flight _ 0 7 _ (Or.inl rfl) rfl rfl (by decide) (by decide)

/-- C4 — No exception propagation: whenever the body of the load procedure
raises (which, by `loadModelBody_error_iff`, happens only when the loader
itself raises), `_load_model` converts the exception into
`model_loaded = False` instead of re-raising, `get_model` returns normally
with the stored reference (so `None` when no handle was stored), and
`is_model_loaded` reports `False`. -/
theorem c4_no_exception_propagation (env : Env) (s : ManagerState)
    (e : PyExn)
    (hun : s.model_loaded = false)
    (hbody : loadModelBody env s = Except.error e) :
    loadModel env s = ({ s with model_loaded := false }, env, 1) ∧
    getModel env s =
      ({ s with
          last_access_time := env.time
          model_loaded := false },
        env, 1, s.model) ∧
    isModelLoaded (getModel env s).1 = false ∧
    (s.model = none → (getModel env s).2.2.2 = none) := by
  obtain ⟨-, hc, hf, hlo⟩ := (loadModelBody_error_iff env s e).mp hbody
  rcases hc with hc | hc <;>
    simp [getModel, loadModel, loadModelBody, loadFromCache, loadFromCacheBody,
      isModelLoaded, hun, hc, hf, hlo]

/-- Witness for C4: a loader failure at a concrete unloaded manager is
absorbed into state. -/
theorem c4_no_exception_propagation_witness :
    loadModel ⟨CacheFile.absent, true, none, true, 2⟩ (initState 0) =
      ({ initState 0 with model_loaded := false },
        ⟨CacheFile.absent, true, none, true, 2⟩, 1) ∧
    getModel ⟨CacheFile.absent, true, none, true, 2⟩ (initState 0) =
      ({ initState 0 with
          last_access_time := 2
          model_loaded := false },
        ⟨CacheFile.absent, true, none, true, 2⟩, 1, (initState 0).model) ∧
    isModelLoaded
        (getModel ⟨CacheFile.absent, true, none, true, 2⟩ (initState 0)).1 =
      false ∧
    ((initState 0).model = none →
      (getModel ⟨CacheFile.absent, true, none, true, 2⟩
          (initState 0)).2.2.2 = none) :=
  c4_no_exception_propagation _ _ PyExn.loaderError rfl rfl

/-- C3 — Failure retriability: on a fresh manager with no weights file and
no cache, `get_model` returns `None`, `is_model_loaded` is `False` and the
filesystem is untouched; after a valid weights file appears (loader yields
`h`, cache location writable), the next `get_model` call returns the
handle, `is_model_loaded` becomes `True`, and the cache file now holds the
serialized handle. -/
theorem c3_failure_retriable (h t : Nat) (envA envB : Env)
    (hAc : envA.cache = CacheFile.absent)
    (hAf : envA.modelFileExists = false)
    (hBc : envB.cache = CacheFile.absent)
    (hBf : envB.modelFileExists = true)
    (hBl : envB.loader = some h)
    (hBw : envB.cacheWritable = true) :
    isModelLoaded (initState t) = false ∧
    (getModel envA (initState t)).2.2.2 = none ∧
    isModelLoaded (getModel envA (initState t)).1 = false ∧
    (getModel envA (initState t)).2.1 = envA ∧
    (getModel envB (getModel envA (initState t)).1).2.2.2 = some h ∧
    isModelLoaded (getModel envB (getModel envA (initState t)).1).1 = true ∧
    (getModel envB (getModel envA (initState t)).1).2.1.cache =
      CacheFile.stored (some h) := by
  have h1 : getModel envA (initState t) =
      ({ initState t with last_access_time := envA.time }, envA, 0, none) := by
    simp [getModel, loadModel, loadModelBody, loadFromCache, loadFromCacheBody,
      initState, hAc, hAf]
  rw [h1]
  simp [getModel, loadModel, loadModelBody, loadFromCache, loadFromCacheBody,
    saveToCache, saveToCacheBody, isModelLoaded, initState,
    hBc, hBf, hBl, hBw]

/-- Witness for C3 at a concrete empty filesystem followed by remediation. -/
theorem c3_failure_retriable_witness :
    isModelLoaded (initState 0) = false ∧
    (getModel ⟨CacheFile.absent, false, none, true, 1⟩
        (initState 0)).2.2.2 = none ∧
    isModelLoaded
        (getModel ⟨CacheFile.absent, false, none, true, 1⟩ (initState 0)).1 =
      false ∧
    (getModel ⟨CacheFile.absent, false, none, true, 1⟩ (initState 0)).2.1 =
      ⟨CacheFile.absent, false, none, true, 1⟩ ∧
    (getModel ⟨CacheFile.absent, true, some 7, true, 2⟩
        (getModel ⟨CacheFile.absent, false, none, true, 1⟩
          (initState 0)).1).2.2.2 = some 7 ∧
    isModelLoaded
        (getModel ⟨CacheFile.absent, true, some 7, true, 2⟩
          (getModel ⟨CacheFile.absent, false, none, true, 1⟩
            (initState 0)).1).1 = true ∧
    (getModel ⟨CacheFile.absent, true, some 7, true, 2⟩
        (getModel ⟨CacheFile.absent, false, none, true, 1⟩
          (initState 0)).1).2.1.cache = CacheFile.stored (some 7) :=
  c3_failure_retriable 7 0 _ _ rfl rfl rfl rfl rfl rfl

/-- C5 counterexample: the claim "in every reachable state, under any
filesystem/cache contents, `loaded = true` implies `model_handle ≠ null`"
is false as stated.  A readable cache file containing a pickled `None`
deserializes without error, so `_load_from_cache` assigns
`self.model = None` and returns `True`, and `_load_model` then sets
`model_loaded = True`: one `get_model` call on a fresh manager reaches a
state with `model_loaded = true` and `model = None`. -/
theorem c5_counterexample :
    (runOpsAdv (initState 0)
        [(Op.get, ⟨CacheFile.stored none, false, none, true, 4⟩)]).1.model_loaded
        = true ∧
    (runOpsAdv (initState 0)
        [(Op.get, ⟨CacheFile.stored none, false, none, true, 4⟩)]).1.model
        = none := by
  decide

/-- C5 (amended) — Loaded-implies-handle invariant: in every state
reachable by any sequence of manager operations, under any
filesystem/cache contents in which no readable cache file deserializes to
`None` (the loader itself never yields `None`), `model_loaded = true`
implies `model ≠ None`. -/
theorem c5_loaded_implies_handle (tr : List (Op × Env)) :
    ∀ s : ManagerState,
      (∀ p ∈ tr, (p.2).cache ≠ CacheFile.stored none) →
      (s.model_loaded = true → s.model ≠ none) →
      ((runOpsAdv s tr).1.model_loaded = true →
        (runOpsAdv s tr).1.model ≠ none) := by
  induction tr with
  | nil => intro s _ hs; exact hs
  | cons p rest ih =>
    intro s hcache hs
    obtain ⟨op, envp⟩ := p
    simp only [runOpsAdv]
    exact ih (stepOp s envp op).1
      (fun q hq => hcache q (List.mem_cons_of_mem _ hq))
      (stepOp_inv s envp op (hcache (op, envp) (List.mem_cons_self _ _)) hs)

/-- Witness for C5 (amended) on a concrete two-call trace with well-formed
cache contents. -/
theorem c5_loaded_implies_handle_witness :
    ((runOpsAdv (initState 0)
        [(Op.get, ⟨CacheFile.absent, true, some 3, true, 2⟩),
         (Op.status,
           ⟨CacheFile.corrupt, false, none, false, 5⟩)]).1.model).isSome
      = true :=
  Option.isSome_iff_ne_none.mpr
    (c5_loaded_implies_handle _ _ (by decide) (by decide) (by decide))

/-- C6 — Loaded is terminal: once the manager holds `model_loaded = true`
with handle `h`, no subsequent sequence of `get_model`,
`start_background_load` and `is_model_loaded` calls — under arbitrary
filesystem/cache contents at each call — ever resets the flag, replaces
the stored handle, or invokes the loader again. -/
theorem c6_loaded_is_terminal (tr : List (Op × Env)) :
    ∀ (s : ManagerState) (h : Nat),
      s.model_loaded = true → s.model = some h →
      (runOpsAdv s tr).1.model_loaded = true ∧
      (runOpsAdv s tr).1.model = some h ∧
      (runOpsAdv s tr).2 = 0 := by
  induction tr with
  | nil => intro s h hl hm; exact ⟨hl, hm, rfl⟩
  | cons p rest ih =>
    intro s h hl hm
    obtain ⟨op, envp⟩ := p
    obtain ⟨h1, h2, _h3, h4, _h5⟩ := stepOp_loaded h s envp op hl hm
    obtain ⟨g1, g2, g3⟩ := ih (stepOp s envp op).1 h h1 h2
    simp only [runOpsAdv]
    exact ⟨g1, g2, by rw [h4, g3]⟩

/-- Witness for C6 on a concrete loaded manager and a two-call trace with
adversarial filesystem contents. -/
theorem c6_loaded_is_terminal_witness :
    (runOpsAdv ⟨some 6, true, false, 0⟩
        [(Op.get, ⟨CacheFile.absent, true, some 1, true, 2⟩),
         (Op.background,
           ⟨CacheFile.corrupt, false, none, false, 3⟩)]).1.model_loaded
        = true ∧
    (runOpsAdv ⟨some 6, true, false, 0⟩
        [(Op.get, ⟨CacheFile.absent, true, some 1, true, 2⟩),
         (Op.background, ⟨CacheFile.corrupt, false, none, false, 3⟩)]).1.model
        = some 6 ∧
    (runOpsAdv ⟨some 6, true, false, 0⟩
        [(Op.get, ⟨CacheFile.absent, true, some 1, true, 2⟩),
         (Op.background, ⟨CacheFile.corrupt, false, none, false, 3⟩)]).2
        = 0 :=
  c6_loaded_is_terminal _ _ 6 rfl rfl
